import Mathlib

/-!
Shallow embedding of the `httperr` Go package.

The package has two source files declaring `package httperr`.  The main file
defines `Handler`, `HandlerFunc`, `Middleware`, `Wrap`, `WrapCommon`,
`WrapCommonToStd`, `WrapToStd`, `HandleErr`, the `handlerError` type with its
`StatusMsg`, `Error`, `Is`, `As`, `Unwrap` methods, and `NewError`.  The second
file (`httperr.go`) is a variant that shares all declarations except
`WrapToStd`, which there applies the supplied `ToStd` converter; we embed both
versions of `WrapToStd` side by side.

Modelling conventions:
  * A Go `Handler` mutates an `http.ResponseWriter` and may return an error;
    we model it as a state transformer `σ → ρ → σ × Option ε` where `σ` is the
    world (response writer plus any other observable effect targets), `ρ` the
    immutable request, and `ε` the error type.
  * Go `error` values relevant to this package are modelled by the inductive
    `GoErr`: opaque leaf errors, wrapping errors exposing `Unwrap`, and the
    package's own `*handlerError`.
  * `errors.Is` / `errors.As` from the Go standard library are modelled by
    `errorsIs` / `errorsAs` specialised to this error universe: at each chain
    element the target check fires first, then the element's own `Is`/`As`
    method (which for `handlerError` delegates to the wrapped cause), then the
    walk continues through `Unwrap`.  Pointer equality of the Go originals is
    modelled by structural equality.
  * For `HandleErr` the world is a concrete event trace `W`: response status
    and body writes, standard error writes, custom sink writes, and marker
    events used as side effect ordering markers.
-/

/-- Go error values occurring in this development: `base` is an opaque leaf
error without an `Unwrap` method, `wrapped` is an error exposing `Unwrap`
(its message is a prefix followed by the cause's message, as produced by
`fmt.Errorf` with `%w`), and `handlerError` mirrors the package's
`*handlerError` struct with fields `err`, `status`, `responseMsg`. -/
inductive GoErr where
  | base (msg : String)
  | wrapped (pre : String) (cause : GoErr)
  | handlerError (err : GoErr) (status : Int) (responseMsg : String)
deriving DecidableEq

/-- The `handlerError` struct of the source, with fields `err`, `status` and
`responseMsg`. -/
structure HandlerError where
  err : GoErr
  status : Int
  responseMsg : String
deriving DecidableEq

/-- View of a `HandlerError` as a Go error value (taking the address of the
struct and using it as an `error`). -/
def HandlerError.toGoErr (h : HandlerError) : GoErr :=
  GoErr.handlerError h.err h.status h.responseMsg

/-- Method `StatusMsg` of `handlerError`: returns the http status code and
message to return to the client. -/
def HandlerError.StatusMsg (h : HandlerError) : Int × String :=
  (h.status, h.responseMsg)

/-- Method `Unwrap` of `handlerError`: returns the underlying error. -/
def HandlerError.Unwrap (h : HandlerError) : GoErr :=
  h.err

/-- Go `%q` on the strings used here: the quoted form of a string. -/
def goQuote (s : String) : String :=
  "\"" ++ s ++ "\""

/-- The `Error()` string of each error value.  For `handlerError` this is
`fmt.Sprintf("status=%d msg=%q err=%q", h.status, h.responseMsg, h.err)`. -/
def errString : GoErr → String
  | GoErr.base m => m
  | GoErr.wrapped p c => p ++ errString c
  | GoErr.handlerError c s m =>
      "status=" ++ toString s ++ " msg=" ++ goQuote m ++ " err=" ++ goQuote (errString c)

/-- `errors.Is` of the Go standard library on this error universe.  At each
chain element: the element is compared against the target (pointer equality,
modelled structurally); then the element's own `Is` method runs when it has
one (`handlerError.Is` delegates to `errors.Is` on the wrapped cause); then
the walk continues through `Unwrap`.  For `handlerError` the method call and
the `Unwrap` step coincide on the wrapped cause. -/
def errorsIs : GoErr → GoErr → Bool
  | GoErr.base m, t => decide (GoErr.base m = t)
  | GoErr.wrapped p c, t => decide (GoErr.wrapped p c = t) || errorsIs c t
  | GoErr.handlerError c s m, t => decide (GoErr.handlerError c s m = t) || errorsIs c t

/-- `errors.As` of the Go standard library, abstracted over the target type:
`isTarget` says which chain elements are assignable to the target.  At each
element assignability is checked first; then the element's own `As` method
runs when it has one (`handlerError.As` delegates to `errors.As` on the
wrapped cause); then the walk continues through `Unwrap`.  Returns the value
the target is set to. -/
def errorsAs (isTarget : GoErr → Bool) : GoErr → Option GoErr
  | GoErr.base m =>
      if isTarget (GoErr.base m) then some (GoErr.base m) else none
  | GoErr.wrapped p c =>
      if isTarget (GoErr.wrapped p c) then some (GoErr.wrapped p c) else errorsAs isTarget c
  | GoErr.handlerError c s m =>
      if isTarget (GoErr.handlerError c s m) then some (GoErr.handlerError c s m)
      else errorsAs isTarget c

/-- Method `Is` of `handlerError`: reports whether any error in the wrapped
cause's tree matches the target. -/
def HandlerError.Is (h : HandlerError) (target : GoErr) : Bool :=
  errorsIs h.err target

/-- Method `As` of `handlerError`: finds the first error in the wrapped
cause's tree assignable to the target. -/
def HandlerError.As (h : HandlerError) (isTarget : GoErr → Bool) : Option GoErr :=
  errorsAs isTarget h.err

/-- The `Unwrap` step used by the standard library chain walk: `wrapped` and
`handlerError` expose an `Unwrap` method, `base` does not. -/
def errUnwrap : GoErr → Option GoErr
  | GoErr.base _ => none
  | GoErr.wrapped _ c => some c
  | GoErr.handlerError c _ _ => some c

/-- `errors.As(err, &e)` with `e` the anonymous interface
`interface{ StatusMsg() (int, string) }`, followed by calling `StatusMsg` on
the found value.  Only `handlerError` implements the interface, so
assignability fires exactly at `handlerError` elements. -/
def asStatusMsg : GoErr → Option (Int × String)
  | GoErr.base _ => none
  | GoErr.wrapped _ c => asStatusMsg c
  | GoErr.handlerError c s m => some (HandlerError.StatusMsg ⟨c, s, m⟩)

/-- `NewError` of the source: builds a `handlerError` from the cause, the
status, and the optional message parts joined by a single space. -/
def NewError (err : GoErr) (status : Int) (responseMsg : List String) : GoErr :=
  HandlerError.toGoErr
    { err := err
      status := status
      responseMsg := String.intercalate " " responseMsg }

/-- `http.StatusText` of the Go standard library (the entries used by
standard servers; unknown codes map to the empty string). -/
def statusText : Int → String
  | 100 => "Continue"
  | 101 => "Switching Protocols"
  | 102 => "Processing"
  | 103 => "Early Hints"
  | 200 => "OK"
  | 201 => "Created"
  | 202 => "Accepted"
  | 203 => "Non-Authoritative Information"
  | 204 => "No Content"
  | 205 => "Reset Content"
  | 206 => "Partial Content"
  | 300 => "Multiple Choices"
  | 301 => "Moved Permanently"
  | 302 => "Found"
  | 303 => "See Other"
  | 304 => "Not Modified"
  | 305 => "Use Proxy"
  | 307 => "Temporary Redirect"
  | 308 => "Permanent Redirect"
  | 400 => "Bad Request"
  | 401 => "Unauthorized"
  | 402 => "Payment Required"
  | 403 => "Forbidden"
  | 404 => "Not Found"
  | 405 => "Method Not Allowed"
  | 406 => "Not Acceptable"
  | 407 => "Proxy Authentication Required"
  | 408 => "Request Timeout"
  | 409 => "Conflict"
  | 410 => "Gone"
  | 411 => "Length Required"
  | 412 => "Precondition Failed"
  | 413 => "Request Entity Too Large"
  | 414 => "Request URI Too Long"
  | 415 => "Unsupported Media Type"
  | 416 => "Requested Range Not Satisfiable"
  | 417 => "Expectation Failed"
  | 421 => "Misdirected Request"
  | 422 => "Unprocessable Entity"
  | 423 => "Locked"
  | 424 => "Failed Dependency"
  | 425 => "Too Early"
  | 426 => "Upgrade Required"
  | 428 => "Precondition Required"
  | 429 => "Too Many Requests"
  | 431 => "Request Header Fields Too Large"
  | 451 => "Unavailable For Legal Reasons"
  | 500 => "Internal Server Error"
  | 501 => "Not Implemented"
  | 502 => "Bad Gateway"
  | 503 => "Service Unavailable"
  | 504 => "Gateway Timeout"
  | 505 => "HTTP Version Not Supported"
  | 506 => "Variant Also Negotiates"
  | 507 => "Insufficient Storage"
  | 508 => "Loop Detected"
  | 510 => "Not Extended"
  | 511 => "Network Authentication Required"
  | _ => ""

/-- `Handler` of the source: responds to an http request and can return an
error.  `σ` is the world acted on through the response writer, `ρ` the
request, `ε` the error type. -/
def Handler (σ ρ ε : Type) : Type :=
  σ → ρ → σ × Option ε

/-- `Middleware` of the source: a function wrapping `Handler` values. -/
def Middleware (σ ρ ε : Type) : Type :=
  Handler σ ρ ε → Handler σ ρ ε

/-- `Wrap` of the source: wraps a set of `Middleware` around a handler; the
first middleware provided is the first invoked on a request; with no
middleware the handler is returned unchanged. -/
def Wrap {σ ρ ε : Type} (h : Handler σ ρ ε) : List (Middleware σ ρ ε) → Handler σ ρ ε
  | [] => h
  | m :: rest => m (Wrap h rest)

/-- `WrapCommon` of the source: wraps a common set of middleware around a
specific set of middleware and a handler.  The source first wraps the
specific set, then wraps that handler's `ServeHTTP` with the common set, and
returns a `HandlerFunc` delegating to the result. -/
def WrapCommon {σ ρ ε : Type} (common : List (Middleware σ ρ ε)) :
    Handler σ ρ ε → List (Middleware σ ρ ε) → Handler σ ρ ε :=
  fun h specific =>
    let handler := Wrap h specific
    let handler2 := Wrap handler common
    fun w r => handler2 w r

/-- Observable events of the world `HandleErr` acts on: response status and
body writes (the response writer), writes to the process standard error
stream, writes to a caller-supplied sink, and a marker event recording an
invocation of a caller-supplied error function (a side effect ordering
marker). -/
inductive WEvent where
  | statusWrite (code : Int)
  | bodyWrite (s : String)
  | stderrWrite (s : String)
  | sinkWrite (s : String)
  | efCall (msg : String) (code : Int)
deriving DecidableEq

/-- The world for `HandleErr`: the trace of observable events so far. -/
abbrev W : Type :=
  List WEvent

/-- An `io.Writer` as used through `fmt.Fprint`: consumes the world and the
printed string. -/
abbrev GoWriter : Type :=
  W → String → W

/-- `ErrFunc` of the source: the function signature required to handle error
responses, modelled on `http.Error`. -/
abbrev ErrFunc : Type :=
  W → String → Int → W

/-- A stdlib `http.Handler`: mutates the response writer, returns nothing. -/
abbrev StdHandler (ρ : Type) : Type :=
  W → ρ → W

/-- `ToStd` of the source: converts a `Handler` to an `http.Handler`. -/
abbrev ToStd (ρ : Type) : Type :=
  Handler W ρ GoErr → StdHandler ρ

/-- The process standard error stream as an `io.Writer`. -/
def osStderr : GoWriter :=
  fun w s => w ++ [WEvent.stderrWrite s]

/-- `http.Error` of the Go standard library: sets the status code and writes
the message followed by a newline as the body.  It performs no substitution
on the message: an empty message yields an empty body line. -/
def httpError : ErrFunc :=
  fun w msg code => w ++ [WEvent.statusWrite code, WEvent.bodyWrite (msg ++ "\n")]

/-- `HandleErr` of the source: resolves the nil defaults (`os.Stderr` for the
writer, `http.Error` for the error function), then converts a `Handler` to a
stdlib handler that runs it, returns at once when no error is produced, and
otherwise classifies the error through the `StatusMsg` chain walk, invokes
the error function with the chosen message and status (falling back to
status 500 and `http.StatusText(500)` when no chain element exposes
`StatusMsg`), and finally prints the error to the writer. -/
def HandleErr {ρ : Type} (errWriter : Option GoWriter) (errFunc : Option ErrFunc) : ToStd ρ :=
  let ew := errWriter.getD osStderr
  let ef := errFunc.getD httpError
  fun h => fun w r =>
    match h w r with
    | (w', none) => w'
    | (w', some err) =>
        let w2 :=
          match asStatusMsg err with
          | some (status, msg) => ef w' msg status
          | none => ef w' (statusText 500) 500
        ew w2 (errString err)

/-- `WrapToStd` of the main source file: wraps the middleware around the
handler, then converts the result with `HandleErr(nil, nil)`.  The `toStd`
argument is accepted but not used. -/
def WrapToStd {ρ : Type} (h : Handler W ρ GoErr) (toStd : ToStd ρ)
    (mw : List (Middleware W ρ GoErr)) : StdHandler ρ :=
  let handler := Wrap h mw
  HandleErr none none handler

/-- `WrapToStd` of the variant file `httperr.go`: wraps the middleware around
the handler, then converts the result with the supplied `toStd`. -/
def WrapToStdVariant {ρ : Type} (h : Handler W ρ GoErr) (toStd : ToStd ρ)
    (mw : List (Middleware W ρ GoErr)) : StdHandler ρ :=
  let handler := Wrap h mw
  toStd handler

/-- The status and message `HandleErr` responds with for a given error: the
result of the `StatusMsg` chain walk when it finds one, and status 500 with
its standard text otherwise. -/
def classifyStatusMsg (err : GoErr) : Int × String :=
  match asStatusMsg err with
  | some (status, msg) => (status, msg)
  | none => (500, statusText 500)

/-- A middleware consisting of pre-logic `p` on the world, a single
delegation to the wrapped handler, and post-logic `q` on the world; the
shape of a middleware with side effect ordering markers. -/
def prePostMw {σ ρ ε : Type} (p q : σ → σ) : Middleware σ ρ ε :=
  fun next => fun w r =>
    let res := next (p w) r
    (q res.1, res.2)

/-- An instrumented error function: records its invocation as a marker
event. -/
def markEf : ErrFunc :=
  fun w msg code => w ++ [WEvent.efCall msg code]

/-- An instrumented error sink: records each write as a sink event. -/
def markSink : GoWriter :=
  fun w s => w ++ [WEvent.sinkWrite s]

/-- Number of error function marker events in a trace. -/
def countEf (w : W) : Nat :=
  w.countP fun e =>
    match e with
    | WEvent.efCall _ _ => true
    | _ => false

/-- Number of sink write events in a trace. -/
def countSink (w : W) : Nat :=
  w.countP fun e =>
    match e with
    | WEvent.sinkWrite _ => true
    | _ => false

/-- A concrete opaque cause error. -/
def errBoom : GoErr :=
  GoErr.base "boom"

/-- A concrete classified error: status 404, message parts `not`, `found`. -/
def errNotFound : GoErr :=
  NewError errBoom 404 ["not", "found"]

/-- A concrete classified error built with zero message parts. -/
def errNoMsg : GoErr :=
  NewError errBoom 404 []

/-- A handler failing with the classified 404 error. -/
def failingHandler : Handler W Unit GoErr :=
  fun w _ => (w, some errNotFound)

/-- A handler failing with an unclassified plain error. -/
def plainFailingHandler : Handler W Unit GoErr :=
  fun w _ => (w, some errBoom)

/-- A handler failing with a classified error that has an empty message. -/
def noMsgHandler : Handler W Unit GoErr :=
  fun w _ => (w, some errNoMsg)

/-- A handler that writes its own success response and returns no error. -/
def okHandler : Handler W Unit GoErr :=
  fun w _ => (w ++ [WEvent.bodyWrite "ok"], none)

/-- A `ToStd` converter that swallows errors and writes nothing. -/
def dropToStd : ToStd Unit :=
  fun _ => fun w _ => w

/-- Running a chain of pre/post middlewares applies the pre-logic left to
right, runs the terminal handler on the result, and applies the post-logic
right to left, returning the terminal's error. -/
theorem wrap_prePost_eq {σ ρ ε : Type} (t : Handler σ ρ ε)
    (pqs : List ((σ → σ) × (σ → σ))) (w : σ) (r : ρ) :
    Wrap t (pqs.map fun pq => prePostMw pq.1 pq.2) w r
      = (pqs.foldr (fun pq a => pq.2 a) (t (pqs.foldl (fun a pq => pq.1 a) w) r).1,
         (t (pqs.foldl (fun a pq => pq.1 a) w) r).2) := by
  induction pqs generalizing w with
  | nil => simp [Wrap]
  | cons pq rest ih => simp [Wrap, prePostMw, ih]

/-- C1: invoking the handler built by `Wrap` over middlewares `m1, ..., mn`
executes each middleware's pre-logic in order `m1, ..., mn`, then the
terminal handler, then each middleware's post-logic in reverse order, and
`Wrap` nests so that the first middleware is outermost and the last wraps
the terminal directly. -/
theorem wrap_execution_order {σ ρ ε : Type} (t : Handler σ ρ ε)
    (pqs : List ((σ → σ) × (σ → σ))) (w : σ) (r : ρ) :
    (∀ (m : Middleware σ ρ ε) (ms : List (Middleware σ ρ ε)),
        Wrap t (m :: ms) = m (Wrap t ms))
  ∧ Wrap t (pqs.map fun pq => prePostMw pq.1 pq.2) w r
      = (pqs.foldr (fun pq a => pq.2 a) (t (pqs.foldl (fun a pq => pq.1 a) w) r).1,
         (t (pqs.foldl (fun a pq => pq.1 a) w) r).2) :=
  ⟨fun _ _ => rfl, wrap_prePost_eq t pqs w r⟩

/-- C4: the handler built by `WrapCommon` runs the common middlewares
outermost: pre-logic for the common list, then the specific list, then the
terminal, then post-logic in the reverse order, whatever the specific list
supplied per call. -/
theorem wrapCommon_common_outermost {σ ρ ε : Type} (t : Handler σ ρ ε)
    (cqs sqs : List ((σ → σ) × (σ → σ))) (w : σ) (r : ρ) :
    WrapCommon (cqs.map fun pq => prePostMw pq.1 pq.2) t
        (sqs.map fun pq => prePostMw pq.1 pq.2) w r
      = ((cqs ++ sqs).foldr (fun pq a => pq.2 a)
           (t ((cqs ++ sqs).foldl (fun a pq => pq.1 a) w) r).1,
         (t ((cqs ++ sqs).foldl (fun a pq => pq.1 a) w) r).2) := by
  simp [WrapCommon, wrap_prePost_eq, List.foldl_append, List.foldr_append]

/-- C7: composing with zero middleware returns the terminal handler
unchanged, so the composed handler produces exactly the effects and return
value of the terminal on any response writer and request. -/
theorem wrap_nil_identity {σ ρ ε : Type} (t : Handler σ ρ ε) :
    Wrap t ([] : List (Middleware σ ρ ε)) = t
  ∧ ∀ (w : σ) (r : ρ), Wrap t [] w r = t w r :=
  ⟨rfl, fun _ _ => rfl⟩

/-- C2: when the wrapped handler fails, the adapter built by `HandleErr`
with the default writer and error function responds with the status and
message found by walking the error's chain for a `StatusMsg` value, and
with status 500 and the standard generic text for 500 when the walk finds
none; the chosen pair is exactly the chain walk's result with that
fallback. -/
theorem handleErr_classifies_by_statusMsg_chain {ρ : Type}
    (h : Handler W ρ GoErr) (w w' : W) (r : ρ) (err : GoErr)
    (hrun : h w r = (w', some err)) :
    HandleErr none none h w r
      = w' ++ [WEvent.statusWrite (classifyStatusMsg err).1,
               WEvent.bodyWrite ((classifyStatusMsg err).2 ++ "\n"),
               WEvent.stderrWrite (errString err)]
  ∧ classifyStatusMsg err = (asStatusMsg err).getD (500, statusText 500)
  ∧ statusText 500 = "Internal Server Error" := by
  refine ⟨?_, ?_, rfl⟩
  · cases hs : asStatusMsg err with
    | none => simp [HandleErr, hrun, hs, classifyStatusMsg, httpError, osStderr]
    | some sm =>
        cases sm with
        | mk s m => simp [HandleErr, hrun, hs, classifyStatusMsg, httpError, osStderr]
  · cases hs : asStatusMsg err with
    | none => simp [classifyStatusMsg, hs]
    | some sm =>
        cases sm with
        | mk s m => simp [classifyStatusMsg, hs]

/-- C2 witness: a handler failing with the classified 404 error, run on the
empty trace. -/
theorem handleErr_classifies_by_statusMsg_chain_witness :
    HandleErr none none failingHandler [] ()
      = [] ++ [WEvent.statusWrite (classifyStatusMsg errNotFound).1,
               WEvent.bodyWrite ((classifyStatusMsg errNotFound).2 ++ "\n"),
               WEvent.stderrWrite (errString errNotFound)]
  ∧ classifyStatusMsg errNotFound = (asStatusMsg errNotFound).getD (500, statusText 500)
  ∧ statusText 500 = "Internal Server Error" :=
  handleErr_classifies_by_statusMsg_chain failingHandler [] [] () errNotFound rfl

/-- C3: with an instrumented error function and error sink, a failing
invocation through the adapter built by `HandleErr` appends exactly one
error function marker carrying the classified message and status, followed
by exactly one sink write carrying the error text, so the error function
runs exactly once, the sink is written exactly once, and the sink write
comes after classification and after the response write; on an invocation
returning no error neither runs. -/
theorem handleErr_errFunc_once_sink_once {ρ : Type}
    (h : Handler W ρ GoErr) (w w' : W) (r : ρ) (err : GoErr)
    (hrun : h w r = (w', some err)) :
    HandleErr (some markSink) (some markEf) h w r
      = w' ++ [WEvent.efCall (classifyStatusMsg err).2 (classifyStatusMsg err).1,
               WEvent.sinkWrite (errString err)]
  ∧ countEf (HandleErr (some markSink) (some markEf) h w r) = countEf w' + 1
  ∧ countSink (HandleErr (some markSink) (some markEf) h w r) = countSink w' + 1
  ∧ ∀ (g : Handler W ρ GoErr) (w0 w0' : W) (r0 : ρ), g w0 r0 = (w0', none) →
      HandleErr (some markSink) (some markEf) g w0 r0 = w0' := by
  have hmain : HandleErr (some markSink) (some markEf) h w r
      = w' ++ [WEvent.efCall (classifyStatusMsg err).2 (classifyStatusMsg err).1,
               WEvent.sinkWrite (errString err)] := by
    cases hs : asStatusMsg err with
    | none => simp [HandleErr, hrun, hs, classifyStatusMsg, markEf, markSink]
    | some sm =>
        cases sm with
        | mk s m => simp [HandleErr, hrun, hs, classifyStatusMsg, markEf, markSink]
  refine ⟨hmain, ?_, ?_, ?_⟩
  · rw [hmain]; simp [countEf]
  · rw [hmain]; simp [countSink]
  · intro g w0 w0' r0 hg
    simp [HandleErr, hg]

/-- C3 witness: the instrumented adapter over the handler failing with the
classified 404 error, run on the empty trace. -/
theorem handleErr_errFunc_once_sink_once_witness :
    HandleErr (some markSink) (some markEf) failingHandler [] ()
      = [] ++ [WEvent.efCall (classifyStatusMsg errNotFound).2 (classifyStatusMsg errNotFound).1,
               WEvent.sinkWrite (errString errNotFound)]
  ∧ countEf (HandleErr (some markSink) (some markEf) failingHandler [] ()) = countEf [] + 1
  ∧ countSink (HandleErr (some markSink) (some markEf) failingHandler [] ()) = countSink [] + 1
  ∧ ∀ (g : Handler W Unit GoErr) (w0 w0' : W) (r0 : Unit), g w0 r0 = (w0', none) →
      HandleErr (some markSink) (some markEf) g w0 r0 = w0' :=
  handleErr_errFunc_once_sink_once failingHandler [] [] () errNotFound rfl

/-- C8: on an invocation where the wrapped handler returns no error, the
adapter built by `HandleErr` does nothing further: the world is exactly the
one the handler produced, for any configured writer and error function. -/
theorem handleErr_success_frame {ρ : Type} (ew : Option GoWriter) (ef : Option ErrFunc)
    (h : Handler W ρ GoErr) (w w' : W) (r : ρ) (hrun : h w r = (w', none)) :
    HandleErr ew ef h w r = w' := by
  simp [HandleErr, hrun]

/-- C8 witness: a handler that writes its own success response, run on the
empty trace through the default adapter. -/
theorem handleErr_success_frame_witness :
    HandleErr none none okHandler [] () = [WEvent.bodyWrite "ok"] :=
  handleErr_success_frame none none okHandler [] [WEvent.bodyWrite "ok"] () rfl

/-- C5 counterexample: for the classified error `NewError(errBoom, 404)`
with zero message parts, the default adapter writes status 404 and the
empty message as the body; the generic text for 404 is `Not Found`, which
is not what is written, so no generic text fallback happens at response
time. -/
theorem newError_no_parts_counterexample :
    HandleErr none none noMsgHandler [] ()
      = [WEvent.statusWrite 404, WEvent.bodyWrite "\n",
         WEvent.stderrWrite (errString errNoMsg)]
  ∧ statusText 404 = "Not Found"
  ∧ WEvent.bodyWrite "\n" ≠ WEvent.bodyWrite (statusText 404 ++ "\n") := by
  refine ⟨rfl, rfl, by decide⟩

/-- C5 amended: a classified error built by `NewError` with zero message
parts carries the empty response message, and the default adapter passes
that empty message to the error function unchanged, writing an empty body
line; no generic text is substituted, at construction or at response
time. -/
theorem newError_no_parts_empty_message {ρ : Type} (cause : GoErr) (status : Int)
    (w : W) (r : ρ) :
    NewError cause status [] = GoErr.handlerError cause status ""
  ∧ HandleErr none none (fun w0 (_ : ρ) => (w0, some (NewError cause status []))) w r
      = w ++ [WEvent.statusWrite status, WEvent.bodyWrite ("" ++ "\n"),
              WEvent.stderrWrite (errString (NewError cause status []))] := by
  refine ⟨rfl, ?_⟩
  simp [HandleErr, NewError, HandlerError.toGoErr, asStatusMsg, HandlerError.StatusMsg,
    httpError, osStderr, String.intercalate]

/-- C6 counterexample: `NewError` accepts the out-of-range status 700 and
the produced classified error carries status 700, outside 100..599. -/
theorem newError_status_700_counterexample :
    asStatusMsg (NewError errBoom 700 []) = some (700, "")
  ∧ ¬ (100 ≤ (700 : Int) ∧ (700 : Int) ≤ 599) := by
  refine ⟨rfl, by decide⟩

/-- C6 amended: `NewError` stores the given status argument verbatim,
performing no validation, so the produced error's status is a valid HTTP
status (100..599) only when the caller's status argument is. -/
theorem newError_stores_status_verbatim (cause : GoErr) (status : Int)
    (parts : List String) :
    asStatusMsg (NewError cause status parts)
      = some (status, String.intercalate " " parts) :=
  rfl

/-- C9: for a classified error built by `NewError`, the `Is` method holds
exactly when the match holds for the wrapped cause, the `As` method
delegates the chain walk to the wrapped cause, and `Unwrap` returns the
wrapped cause directly; consequently the standard library chain walks on
the classified error itself delegate to the cause whenever the target is
not the envelope. -/
theorem newError_chain_delegates_to_cause (cause : GoErr) (status : Int)
    (parts : List String) (target : GoErr) (isTarget : GoErr → Bool)
    (hne : NewError cause status parts ≠ target)
    (hnt : isTarget (NewError cause status parts) = false) :
    HandlerError.Is ⟨cause, status, String.intercalate " " parts⟩ target
      = errorsIs cause target
  ∧ HandlerError.As ⟨cause, status, String.intercalate " " parts⟩ isTarget
      = errorsAs isTarget cause
  ∧ HandlerError.Unwrap ⟨cause, status, String.intercalate " " parts⟩ = cause
  ∧ errorsIs (NewError cause status parts) target = errorsIs cause target
  ∧ errorsAs isTarget (NewError cause status parts) = errorsAs isTarget cause
  ∧ errUnwrap (NewError cause status parts) = some cause := by
  refine ⟨rfl, rfl, rfl, ?_, ?_, rfl⟩
  · simp only [NewError, HandlerError.toGoErr] at hne ⊢
    simp [errorsIs, hne]
  · simp only [NewError, HandlerError.toGoErr] at hnt ⊢
    simp [errorsAs, hnt]

/-- C9 witness: the classified 404 error over the cause `errBoom`, tested
against the cause itself as target and against a target type matching only
`base` errors. -/
theorem newError_chain_delegates_to_cause_witness :
    HandlerError.Is ⟨errBoom, 404, String.intercalate " " ["not", "found"]⟩ errBoom
      = errorsIs errBoom errBoom
  ∧ HandlerError.As ⟨errBoom, 404, String.intercalate " " ["not", "found"]⟩
        (fun e => decide (e = errBoom))
      = errorsAs (fun e => decide (e = errBoom)) errBoom
  ∧ HandlerError.Unwrap ⟨errBoom, 404, String.intercalate " " ["not", "found"]⟩ = errBoom
  ∧ errorsIs (NewError errBoom 404 ["not", "found"]) errBoom = errorsIs errBoom errBoom
  ∧ errorsAs (fun e => decide (e = errBoom)) (NewError errBoom 404 ["not", "found"])
      = errorsAs (fun e => decide (e = errBoom)) errBoom
  ∧ errUnwrap (NewError errBoom 404 ["not", "found"]) = some errBoom :=
  newError_chain_delegates_to_cause errBoom 404 ["not", "found"] errBoom
    (fun e => decide (e = errBoom)) (by decide) (by decide)

/-- C10 counterexample: with a `ToStd` converter that swallows errors, the
two `WrapToStd` definitions disagree on a failing handler: the main file's
version ignores the converter and responds through `HandleErr(nil, nil)`,
while the variant file's version applies the converter. -/
theorem wrapToStd_versions_differ_counterexample :
    WrapToStd plainFailingHandler dropToStd [] [] ()
      ≠ WrapToStdVariant plainFailingHandler dropToStd [] [] () := by
  decide

/-- C10 amended: the main file's `WrapToStd` ignores the supplied `ToStd`
converter and equals the variant file's `WrapToStd` with the converter
replaced by `HandleErr(nil, nil)`, while the variant file's `WrapToStd`
applies the supplied converter to the handler built by `Wrap`; the two
definitions therefore agree exactly when the supplied converter behaves
like `HandleErr(nil, nil)` on the wrapped handler. -/
theorem wrapToStd_ignores_toStd {ρ : Type} (h : Handler W ρ GoErr) (toStd : ToStd ρ)
    (mw : List (Middleware W ρ GoErr)) :
    WrapToStd h toStd mw = WrapToStdVariant h (HandleErr none none) mw
  ∧ WrapToStdVariant h toStd mw = toStd (Wrap h mw) :=
  ⟨rfl, rfl⟩
